import Mathlib

/-!
Verification of the flamethrower client-side router (`src/lib/router.ts`)
against its natural-language specification.

The router is embedded shallowly:
* the DOM / network side effects the router performs are recorded in an
  explicit trace of `Effect`s, in the order the code performs them;
* the browser environment visible to the router (current location, links
  present in the document) is a `BrowserSt` record threaded through the
  operations;
* the outcome of the `fetch` call (which the router merely awaits) is an
  input `FetchResult` to the cycle;
* the external capabilities from `dom.ts` / `handlers.ts` (not part of the
  core source) appear as opaque trace events, except where a claim needs
  their behaviour, in which case they are modelled from the spec and
  marked as such.
-/

/-- One observable side effect performed by the router, in program order. -/
inductive Effect where
  | log (msg : String)
  | warn (msg : String)
  | errorLog (msg : String)
  | dispatch (eventName : String)
  | pushState (url : String)
  | fetchReq (url : String)
  | mergeHead
  | replaceBody
  | execScript (s : String)
  | scrollTo (navType : String)
  | appendPrefetchLink (url : String)
  | addListener (eventName : String)
  | timeStart
  | timeEnd
  | transitionStart
deriving DecidableEq, Repr

/-- Whether `sub` is a prefix of `s` (on character lists). -/
def listHasPfx : List Char → List Char → Bool
  | _, [] => true
  | [], _ :: _ => false
  | a :: as, b :: bs => (a == b) && listHasPfx as bs

/-- Whether `sub` occurs contiguously inside `s` (on character lists). -/
def listHasInfix : List Char → List Char → Bool
  | [], sub => sub.isEmpty
  | c :: rest, sub => listHasPfx (c :: rest) sub || listHasInfix rest sub

/-- JavaScript `s.includes(sub)`: substring containment test. -/
def jsIncludes (s sub : String) : Bool :=
  listHasInfix s.data sub.data

/-- JavaScript `a || b` on strings: `a` when truthy (non-empty), else `b`. -/
def jsOrStr (a b : String) : String :=
  if a = "" then b else a

/-- The router options after merging (`FlamethrowerOptions` with defaults applied). -/
structure Opts where
  log : Bool
  prefetch : Bool
  pageTransitions : Bool
deriving DecidableEq, Repr

/-- The `defaultOpts` constant from `router.ts`. -/
def defaultOpts : Opts :=
  { log := false, prefetch := true, pageTransitions := false }

/-- Caller-supplied `FlamethrowerOptions`: each field optional. -/
structure PartialOpts where
  log : Option Bool
  prefetch : Option Bool
  pageTransitions : Option Bool
deriving DecidableEq, Repr

/-- The constructor option merge `{ ...defaultOpts, ...opts }`. -/
def mergeOpts : Option PartialOpts → Opts
  | none => defaultOpts
  | some p =>
    { log := p.log.getD defaultOpts.log,
      prefetch := p.prefetch.getD defaultOpts.prefetch,
      pageTransitions := p.pageTransitions.getD defaultOpts.pageTransitions }

/-- The browser environment the router reads: `document.location.origin`,
`document.location.href`, and the `href`s of `document.links`. -/
structure BrowserSt where
  origin : String
  href : String
  links : List String
deriving DecidableEq, Repr

/-- The router instance state: the `enabled` flag and the `prefetched` set.
The set is modelled as a duplicate-free list in insertion order. -/
structure RouterSt where
  enabled : Bool
  prefetched : List String
deriving DecidableEq, Repr

/-- One navigation intent record (`RouteChangeData`): `type`, `next`, `prev`. -/
structure RouteChangeData where
  navType : String
  next : String
  prev : String
deriving DecidableEq, Repr

/-- The parsed destination document a cycle obtains from
`formatNextDocument(html)` (`dom.ts`, external capability): its link
`href`s and its body script elements. -/
structure NextDoc where
  links : List String
  scripts : List String
deriving DecidableEq, Repr

/-- Outcome of the awaited `fetch(next)` / `res.text()` pair:
either the response resolves (with its HTTP status and the parsed
document), or the fetch rejects (network failure).  Note that in the
`fetch` API a non-2xx response still *resolves*. -/
inductive FetchResult where
  | success (status : Nat) (doc : NextDoc)
  | rejected
deriving DecidableEq, Repr

/-- JavaScript `Set.prototype.add`: insert if absent (idempotent). -/
def setAdd (s : List String) (v : String) : List String :=
  if s.contains v then s else s ++ [v]

/-- The state-independent part of the `Router.prefetch` filter on one link
`href` `v`: `v.includes(document.location.origin) && !v.includes('#')
 && v !== (document.location.href || document.location.href + '/')`. -/
def prefetchCore (bs : BrowserSt) (v : String) : Bool :=
  jsIncludes v bs.origin && !jsIncludes v "#" &&
    v != jsOrStr bs.href (bs.href ++ "/")

/-- The full filter of `Router.prefetch`: the core conditions together with
`!this.prefetched.has(v)`. -/
def prefetchPred (bs : BrowserSt) (pf : List String) (v : String) : Bool :=
  prefetchCore bs v && !pf.contains v

/-- The method `Router.prefetch`: when the `prefetch` option is set, filter the
document links, and for each survivor append a prefetch `<link>` element
to the head and record the URL in the prefetched set.  Returns the new
prefetched set and the trace of effects. -/
def prefetch (optPrefetch : Bool) (bs : BrowserSt) (pf : List String) :
    List String × List Effect :=
  if optPrefetch then
    let allLinks := bs.links.filter (prefetchPred bs pf)
    (allLinks.foldl setAdd pf, allLinks.map Effect.appendPrefetchLink)
  else
    (pf, [])

/-- Modelled from the spec: `runScripts` (`dom.ts`, not part of the core
source) re-executes every script element present in the (new) body, one
execution per script element, in document order. -/
def runScriptsTrace (scripts : List String) : List Effect :=
  scripts.map Effect.execScript

/-- Result of one `reconstructDOM` call: the router state, the browser
state, the effect trace, and the JS return value (`none` = `undefined`,
`some false` = the `return false` of the catch block). -/
structure CycleResult where
  router : RouterSt
  browser : BrowserSt
  trace : List Effect
  ret : Option Bool
deriving DecidableEq, Repr

/-- The method `Router.reconstructDOM` on an intent record.

Follows `router.ts` lines 112-170 step by step:
* disabled guard (log only);
* eligibility: `['popstate','link','go'].includes(type) && next !== prev`;
* on the eligible path: optional `console.time`, `router:fetch` dispatch,
  `addToPushState(next)` (which updates `location.href`), then the
  awaited `fetch(next)`;
* if the fetch rejects, the catch block dispatches `router:error`, ends
  the timer, logs the error and returns `false`;
* if it resolves (any HTTP status), the parsed document's head is merged,
  the body replaced (optionally inside a document transition), the body
  scripts re-run, scroll handled, `router:end` dispatched, and the
  prefetch pass re-run against the new document. -/
def reconstructDOM (opts : Opts) (st : RouterSt) (bs : BrowserSt)
    (rcd : RouteChangeData) (fr : FetchResult) (hasTransition : Bool) :
    CycleResult :=
  if !st.enabled then
    { router := st, browser := bs,
      trace := [Effect.log "router disabled"], ret := none }
  else if (["popstate", "link", "go"].contains rcd.navType) && (rcd.next != rcd.prev) then
    let pre : List Effect :=
      [Effect.log ("⚡ " ++ rcd.navType)]
        ++ (if opts.log then [Effect.timeStart] else [])
        ++ [Effect.dispatch "router:fetch",
            Effect.pushState rcd.next,
            Effect.fetchReq rcd.next]
    match fr with
    | FetchResult.rejected =>
      { router := st, browser := { bs with href := rcd.next },
        trace := pre ++ [Effect.dispatch "router:error"]
          ++ (if opts.log then [Effect.timeEnd] else [])
          ++ [Effect.errorLog "💥 router fetch failed"],
        ret := some false }
    | FetchResult.success _ doc =>
      let bs' : BrowserSt := { bs with href := rcd.next, links := doc.links }
      let merged : List Effect :=
        if opts.pageTransitions && hasTransition then
          [Effect.transitionStart, Effect.replaceBody] ++ runScriptsTrace doc.scripts
        else
          [Effect.replaceBody] ++ runScriptsTrace doc.scripts
      let pf := prefetch opts.prefetch bs' st.prefetched
      { router := { st with prefetched := pf.1 }, browser := bs',
        trace := pre ++ [Effect.mergeHead] ++ merged
          ++ [Effect.scrollTo rcd.navType, Effect.dispatch "router:end"]
          ++ pf.2
          ++ (if opts.log then [Effect.timeEnd] else []),
        ret := none }
  else
    { router := st, browser := bs,
      trace := [Effect.log ("⚡ " ++ rcd.navType)], ret := none }

/-- The `Router` constructor: merge options, register click/popstate
listeners when `window.history` exists (else only `console.warn`), then
run the initial prefetch pass.  Note the field initializer `enabled = true`
runs unconditionally; the constructor never changes it. -/
def construct (popts : Option PartialOpts) (hasHistory : Bool) (bs : BrowserSt) :
    RouterSt × List Effect :=
  let opts := mergeOpts popts
  let listen : List Effect :=
    if hasHistory then
      [Effect.addListener "click", Effect.addListener "popstate"]
    else
      [Effect.warn "flamethrower router not supported in this browser or environment"]
  let pf := prefetch opts.prefetch bs []
  ({ enabled := true, prefetched := pf.1 }, listen ++ pf.2)

/-- An external event driving the router after construction: either a
navigation intent entering `reconstructDOM` (together with the outcome the
network will deliver for it), or the host flipping the `enabled` flag. -/
inductive Evt where
  | intent (rcd : RouteChangeData) (fr : FetchResult) (hasTransition : Bool)
  | setEnabled (b : Bool)
deriving DecidableEq, Repr

/-- One step of the router's event loop. -/
def step (opts : Opts) : RouterSt × BrowserSt → Evt → RouterSt × BrowserSt
  | (st, bs), Evt.intent rcd fr ht =>
    let r := reconstructDOM opts st bs rcd fr ht
    (r.router, r.browser)
  | (st, bs), Evt.setEnabled b => ({ st with enabled := b }, bs)

/-- Run the router from construction through a list of events; the
resulting states are exactly the reachable states of the router. -/
def run (popts : Option PartialOpts) (hasHistory : Bool) (bs : BrowserSt)
    (es : List Evt) : RouterSt × BrowserSt :=
  es.foldl (step (mergeOpts popts)) ((construct popts hasHistory bs).1, bs)

/-! ### Basic facts about the prefetched set and the prefetch pass -/

theorem mem_setAdd (pf : List String) (a v : String) :
    v ∈ setAdd pf a ↔ v ∈ pf ∨ v = a := by
  unfold setAdd
  split
  · next h =>
    simp only [List.contains_eq_any_beq, List.any_eq_true, beq_iff_eq] at h
    obtain ⟨b, hb, rfl⟩ := h
    constructor
    · exact Or.inl
    · rintro (hv | rfl) <;> assumption
  · simp

theorem mem_foldl_setAdd (ls : List String) (pf : List String) (v : String) :
    v ∈ ls.foldl setAdd pf ↔ v ∈ pf ∨ v ∈ ls := by
  induction ls generalizing pf with
  | nil => simp
  | cons a as ih =>
    simp only [List.foldl_cons, ih, mem_setAdd, List.mem_cons]
    tauto

theorem nodup_setAdd (pf : List String) (a : String) (h : pf.Nodup) :
    (setAdd pf a).Nodup := by
  unfold setAdd
  split
  · exact h
  · next hna =>
    rw [List.nodup_append]
    refine ⟨h, List.nodup_singleton a, ?_⟩
    intro x hx hxa
    simp only [List.mem_singleton] at hxa
    subst hxa
    simp only [List.contains_eq_any_beq, List.any_eq_true, beq_iff_eq] at hna
    exact hna ⟨x, hx, rfl⟩

theorem nodup_foldl_setAdd (ls pf : List String) (h : pf.Nodup) :
    (ls.foldl setAdd pf).Nodup := by
  induction ls generalizing pf with
  | nil => exact h
  | cons a as ih => exact ih _ (nodup_setAdd _ _ h)

theorem prefetch_fst_mem (bs : BrowserSt) (pf : List String) (v : String) :
    v ∈ (prefetch true bs pf).1 ↔
      v ∈ pf ∨ (v ∈ bs.links ∧ prefetchPred bs pf v = true) := by
  simp [prefetch, mem_foldl_setAdd, List.mem_filter]

theorem prefetch_mono (b : Bool) (bs : BrowserSt) (pf : List String) (v : String)
    (h : v ∈ pf) : v ∈ (prefetch b bs pf).1 := by
  cases b
  · simpa [prefetch] using h
  · exact (prefetch_fst_mem bs pf v).mpr (Or.inl h)

theorem prefetch_fst_nodup (b : Bool) (bs : BrowserSt) (pf : List String)
    (h : pf.Nodup) : (prefetch b bs pf).1.Nodup := by
  cases b
  · simpa [prefetch] using h
  · simpa [prefetch] using nodup_foldl_setAdd _ _ h

theorem prefetch_snd_shape (b : Bool) (bs : BrowserSt) (pf : List String)
    (e : Effect) (h : e ∈ (prefetch b bs pf).2) :
    ∃ u, e = Effect.appendPrefetchLink u := by
  cases b
  · simp [prefetch] at h
  · simp only [prefetch, if_true, List.mem_map] at h
    obtain ⟨u, _, rfl⟩ := h
    exact ⟨u, rfl⟩

theorem prefetch_count_one (bs : BrowserSt) (pf : List String) (v : String)
    (hnd : pf.Nodup) (hv : v ∈ bs.links) (hp : prefetchPred bs pf v = true) :
    (prefetch true bs pf).1.count v = 1 :=
  List.count_eq_one_of_mem (prefetch_fst_nodup true bs pf hnd)
    ((prefetch_fst_mem bs pf v).mpr (Or.inr ⟨hv, hp⟩))

theorem prefetch_again_filter_nil (bs : BrowserSt) (pf : List String) :
    bs.links.filter (prefetchPred bs (prefetch true bs pf).1) = [] := by
  rw [List.filter_eq_nil_iff]
  intro v hv
  simp only [prefetchPred, Bool.and_eq_true, Bool.not_eq_true']
  rintro ⟨hcore, hcon⟩
  have hvmem : v ∈ (prefetch true bs pf).1 := by
    rcases Decidable.em (v ∈ pf) with h | h
    · exact prefetch_mono true bs pf v h
    · refine (prefetch_fst_mem bs pf v).mpr (Or.inr ⟨hv, ?_⟩)
      simp [prefetchPred, hcore, h]
  simp [hvmem] at hcon

theorem prefetch_idem (bs : BrowserSt) (pf : List String) :
    prefetch true bs (prefetch true bs pf).1 = ((prefetch true bs pf).1, []) := by
  have h := prefetch_again_filter_nil bs pf
  simp only [prefetch, if_true] at h ⊢
  rw [h]
  simp

/-! ### Spec-side notions of link eligibility (for the refinement claim C4) -/

/-- A structured URL, for stating the specification's link-eligibility
rules; the router code itself only ever sees the serialized `href`. -/
structure Url where
  origin : String
  path : String
  frag : Option String
deriving DecidableEq, Repr

/-- Serialize a `Url` to the `href` string the DOM exposes. -/
def Url.href (u : Url) : String :=
  u.origin ++ u.path ++ (match u.frag with | none => "" | some f => "#" ++ f)

/-- Modelled from the spec: a link is a pure same-page anchor when it
differs from the current document only by carrying a fragment (no
origin/path delta). -/
def specSamePageAnchor (doc u : Url) : Bool :=
  u.origin == doc.origin && u.path == doc.path && u.frag.isSome

/-- Modelled from the spec (section 4.3): a link is eligible for prefetch
iff it (a) shares the document's origin, (b) is not a pure same-page
anchor, (c) does not resolve to the current document URL, and (d) is not
already present in the prefetched set. -/
def specEligible (doc : Url) (pf : List String) (u : Url) : Bool :=
  u.origin == doc.origin && !specSamePageAnchor doc u &&
    u.href != doc.href && !pf.contains u.href

/-! ### Concrete fixtures used by counterexamples and witnesses -/

/-- Current document for the concrete scenarios: `https://a.example/`. -/
def urlDocA : Url := { origin := "https://a.example", path := "/", frag := none }

/-- An in-origin link to a different path that carries a fragment. -/
def urlAnchor : Url := { origin := "https://a.example", path := "/other", frag := some "x" }

/-- A cross-origin link whose href merely contains the document origin as
a substring (in a query parameter). -/
def urlEvil : Url := { origin := "https://evil.example", path := "/?q=https://a.example", frag := none }

/-- Browser state for the C4 scenario: both links above in the document. -/
def bsC4 : BrowserSt :=
  { origin := urlDocA.origin, href := urlDocA.href,
    links := [urlAnchor.href, urlEvil.href] }

/-- Browser state on `https://a.example/` with a single link to `/about`. -/
def bsA : BrowserSt :=
  { origin := "https://a.example", href := "https://a.example/",
    links := ["https://a.example/about"] }

/-- The empty parsed destination document. -/
def docEmpty : NextDoc := { links := [], scripts := [] }

/-- A programmatic intent from `https://a.example/` to `/about`. -/
def rcdAbout : RouteChangeData :=
  { navType := "go", next := "https://a.example/about", prev := "https://a.example/" }

/-! ### Claim theorems -/

/-- Claim C9 (confirmed): calling the prefetch pass twice with an
unchanged link set adds each eligible URL to the prefetched set exactly
once, and the second call issues no new prefetch requests. -/
theorem C9_prefetch_idempotent (bs : BrowserSt) (pf0 : List String)
    (h : pf0.Nodup) :
    (prefetch true bs (prefetch true bs pf0).1).2 = [] ∧
    (prefetch true bs (prefetch true bs pf0).1).1 = (prefetch true bs pf0).1 ∧
    ∀ v ∈ bs.links, prefetchPred bs pf0 v = true →
      (prefetch true bs pf0).1.count v = 1 := by
  refine ⟨?_, ?_, ?_⟩
  · rw [prefetch_idem]
  · rw [prefetch_idem]
  · intro v hv hp
    exact prefetch_count_one bs pf0 v h hv hp

/-- Witness for C9: the concrete page `https://a.example/` with one link,
starting from an empty prefetched set. -/
theorem C9_prefetch_idempotent_witness :
    ([] : List String).Nodup ∧
    ((prefetch true bsA (prefetch true bsA []).1).2 = [] ∧
     (prefetch true bsA (prefetch true bsA []).1).1 = (prefetch true bsA []).1 ∧
     ∀ v ∈ bsA.links, prefetchPred bsA [] v = true →
       (prefetch true bsA []).1.count v = 1) :=
  ⟨List.nodup_nil, C9_prefetch_idempotent bsA [] List.nodup_nil⟩

/-- Claim C4 counterexample: on `https://a.example/`, the in-origin link
`https://a.example/other#x` satisfies all four of the spec's eligibility
rules (shares the origin, is not a pure same-page anchor, does not resolve
to the current URL, not yet prefetched), yet the code issues no prefetch
for it, because the code drops every href containing `#` anywhere; and the
cross-origin link `https://evil.example/?q=https://a.example` violates
rule (a), yet the code does prefetch it, because the code only tests
substring containment of the origin. -/
theorem C4_counterexample :
    (specEligible urlDocA [] urlAnchor = true ∧
      Effect.appendPrefetchLink urlAnchor.href ∉ (prefetch true bsC4 []).2) ∧
    (specEligible urlDocA [] urlEvil = false ∧
      Effect.appendPrefetchLink urlEvil.href ∈ (prefetch true bsC4 []).2) := by
  decide

/-- Claim C4 (amended): the prefetch pass issues a prefetch request for a
URL `v` iff `v` is a link of the document whose href (a') contains the
document origin as a substring, (b') contains no `#` character anywhere,
(c') differs as a string from the current document href, and (d') is not
already in the prefetched set. -/
theorem C4_prefetch_filter (bs : BrowserSt) (pf : List String) (v : String) :
    Effect.appendPrefetchLink v ∈ (prefetch true bs pf).2 ↔
      v ∈ bs.links ∧ jsIncludes v bs.origin = true ∧ jsIncludes v "#" = false ∧
        v ≠ jsOrStr bs.href (bs.href ++ "/") ∧ v ∉ pf := by
  simp only [prefetch, if_true, List.mem_map, List.mem_filter,
    Effect.appendPrefetchLink.injEq, exists_eq_right, prefetchPred, prefetchCore,
    Bool.and_eq_true, Bool.not_eq_true', bne_iff_ne, ne_eq]
  constructor
  · rintro ⟨hv, ⟨⟨h1, h2⟩, h3⟩, h4⟩
    refine ⟨hv, h1, h2, h3, ?_⟩
    simpa using h4
  · rintro ⟨hv, h1, h2, h3, h4⟩
    refine ⟨hv, ⟨⟨h1, h2⟩, h3⟩, ?_⟩
    simpa using h4

/-- Claim C10 (confirmed): with the prefetch option false, the prefetch
pass is a no-op: it returns the prefetched set unchanged and appends no
prefetch link elements, both as called by the constructor and as called at
the end of a settled reconstruction cycle. -/
theorem C10_prefetch_option_off (popts : Option PartialOpts) (hh : Bool)
    (bs bs2 : BrowserSt) (pf : List String) (opts : Opts) (st : RouterSt)
    (rcd : RouteChangeData) (fr : FetchResult) (ht : Bool)
    (hp : (mergeOpts popts).prefetch = false) (ho : opts.prefetch = false) :
    prefetch false bs pf = (pf, []) ∧
    (construct popts hh bs).1.prefetched = [] ∧
    (∀ u, Effect.appendPrefetchLink u ∉ (construct popts hh bs).2) ∧
    (reconstructDOM opts st bs2 rcd fr ht).router.prefetched = st.prefetched ∧
    (∀ u, Effect.appendPrefetchLink u ∉ (reconstructDOM opts st bs2 rcd fr ht).trace) := by
  refine ⟨by simp [prefetch], ?_, ?_, ?_, ?_⟩
  · simp [construct, hp, prefetch]
  · intro u
    cases hh <;> simp [construct, hp, prefetch]
  · rcases fr with ⟨status, doc⟩ | _ <;>
      simp [reconstructDOM, ho, prefetch] <;> split_ifs <;> rfl
  · intro u
    rcases fr with ⟨status, doc⟩ | _ <;>
      simp [reconstructDOM, ho, prefetch, runScriptsTrace] <;> split_ifs <;> simp

/-- Options with prefetch explicitly disabled (caller-supplied form). -/
def poptsNoPf : Option PartialOpts :=
  some { log := none, prefetch := some false, pageTransitions := none }

/-- Merged options with prefetch disabled. -/
def optsNoPf : Opts := { log := false, prefetch := false, pageTransitions := false }

/-- A fresh enabled router state with nothing prefetched. -/
def stEnabled : RouterSt := { enabled := true, prefetched := [] }

/-- Witness for C10 at concrete inputs with the prefetch option off. -/
theorem C10_prefetch_option_off_witness :
    (mergeOpts poptsNoPf).prefetch = false ∧ optsNoPf.prefetch = false ∧
    (prefetch false bsA [] = ([], []) ∧
     (construct poptsNoPf true bsA).1.prefetched = [] ∧
     (∀ u, Effect.appendPrefetchLink u ∉ (construct poptsNoPf true bsA).2) ∧
     (reconstructDOM optsNoPf stEnabled bsA rcdAbout
        (FetchResult.success 200 docEmpty) false).router.prefetched = stEnabled.prefetched ∧
     (∀ u, Effect.appendPrefetchLink u ∉ (reconstructDOM optsNoPf stEnabled bsA rcdAbout
        (FetchResult.success 200 docEmpty) false).trace)) :=
  ⟨by decide, by decide,
    C10_prefetch_option_off poptsNoPf true bsA bsA [] optsNoPf stEnabled rcdAbout
      (FetchResult.success 200 docEmpty) false (by decide) (by decide)⟩

/-- Claim C1 counterexample: constructed in an environment without the
navigable-history capability, the router's `enabled` flag is still `true`
afterwards — the constructor only warns, it never disables itself. -/
theorem C1_counterexample : (construct none false bsA).1.enabled = true := by
  decide

/-- Claim C1 (amended): without the navigable-history capability the
constructor emits exactly one warning diagnostic, registers no click or
popstate listeners, and never throws (it is a total function), but the
`enabled` flag remains `true`, so a programmatic intent can still start a
cycle. -/
theorem C1_no_history (popts : Option PartialOpts) (bs : BrowserSt) :
    (construct popts false bs).1.enabled = true ∧
    (construct popts false bs).2.count
      (Effect.warn "flamethrower router not supported in this browser or environment") = 1 ∧
    ∀ n, Effect.addListener n ∉ (construct popts false bs).2 := by
  refine ⟨rfl, ?_, ?_⟩
  · have h0 : ((prefetch (mergeOpts popts).prefetch bs []).2).count
        (Effect.warn "flamethrower router not supported in this browser or environment") = 0 := by
      rw [List.count_eq_zero]
      intro hmem
      obtain ⟨u, hu⟩ := prefetch_snd_shape _ _ _ _ hmem
      exact Effect.noConfusion hu
    simp [construct, List.count_append, h0]
  · intro n
    simp only [construct, if_neg Bool.false_ne_true, List.mem_append, List.mem_singleton]
    rintro (h | h)
    · exact Effect.noConfusion h
    · obtain ⟨u, hu⟩ := prefetch_snd_shape _ _ _ _ h
      exact Effect.noConfusion hu

/-! ### Branch equations for `reconstructDOM` -/

theorem reconstructDOM_disabled (opts : Opts) (st : RouterSt) (bs : BrowserSt)
    (rcd : RouteChangeData) (fr : FetchResult) (ht : Bool)
    (he : st.enabled = false) :
    reconstructDOM opts st bs rcd fr ht =
      { router := st, browser := bs,
        trace := [Effect.log "router disabled"], ret := none } := by
  simp [reconstructDOM, he]

theorem reconstructDOM_skip (opts : Opts) (st : RouterSt) (bs : BrowserSt)
    (rcd : RouteChangeData) (fr : FetchResult) (ht : Bool)
    (he : st.enabled = true)
    (h : (["popstate", "link", "go"].contains rcd.navType && (rcd.next != rcd.prev)) = false) :
    reconstructDOM opts st bs rcd fr ht =
      { router := st, browser := bs,
        trace := [Effect.log ("⚡ " ++ rcd.navType)], ret := none } := by
  simp only [reconstructDOM, he, Bool.not_true, Bool.false_eq_true, if_false, h]

theorem reconstructDOM_rejected (opts : Opts) (st : RouterSt) (bs : BrowserSt)
    (rcd : RouteChangeData) (ht : Bool)
    (he : st.enabled = true)
    (h : (["popstate", "link", "go"].contains rcd.navType && (rcd.next != rcd.prev)) = true) :
    reconstructDOM opts st bs rcd FetchResult.rejected ht =
      { router := st, browser := { bs with href := rcd.next },
        trace := [Effect.log ("⚡ " ++ rcd.navType)]
          ++ (if opts.log then [Effect.timeStart] else [])
          ++ [Effect.dispatch "router:fetch", Effect.pushState rcd.next,
              Effect.fetchReq rcd.next]
          ++ [Effect.dispatch "router:error"]
          ++ (if opts.log then [Effect.timeEnd] else [])
          ++ [Effect.errorLog "💥 router fetch failed"],
        ret := some false } := by
  simp [reconstructDOM, he, h]
  simpa using h

theorem reconstructDOM_success (opts : Opts) (st : RouterSt) (bs : BrowserSt)
    (rcd : RouteChangeData) (ht : Bool) (status : Nat) (doc : NextDoc)
    (he : st.enabled = true)
    (h : (["popstate", "link", "go"].contains rcd.navType && (rcd.next != rcd.prev)) = true) :
    reconstructDOM opts st bs rcd (FetchResult.success status doc) ht =
      { router := { st with prefetched :=
            (prefetch opts.prefetch { bs with href := rcd.next, links := doc.links }
              st.prefetched).1 },
        browser := { bs with href := rcd.next, links := doc.links },
        trace := [Effect.log ("⚡ " ++ rcd.navType)]
          ++ (if opts.log then [Effect.timeStart] else [])
          ++ [Effect.dispatch "router:fetch", Effect.pushState rcd.next,
              Effect.fetchReq rcd.next]
          ++ [Effect.mergeHead]
          ++ (if opts.pageTransitions && ht then
                [Effect.transitionStart, Effect.replaceBody] ++ runScriptsTrace doc.scripts
              else
                [Effect.replaceBody] ++ runScriptsTrace doc.scripts)
          ++ [Effect.scrollTo rcd.navType, Effect.dispatch "router:end"]
          ++ (prefetch opts.prefetch { bs with href := rcd.next, links := doc.links }
                st.prefetched).2
          ++ (if opts.log then [Effect.timeEnd] else []),
        ret := none } := by
  simp [reconstructDOM, he, h]
  simpa using h

/-- A disabled router state. -/
def stDisabled : RouterSt := { enabled := false, prefetched := [] }

/-- An intent whose resolved target equals the current page URL. -/
def rcdSame : RouteChangeData :=
  { navType := "go", next := "https://a.example/", prev := "https://a.example/" }

/-- Claim C6 (confirmed): while `enabled` is false, an intent produces only
the diagnostic log: no fetch, no history push, no event dispatch of any
kind, and both the router state and the browser state are untouched. -/
theorem C6_disabled_noop (opts : Opts) (st : RouterSt) (bs : BrowserSt)
    (rcd : RouteChangeData) (fr : FetchResult) (ht : Bool)
    (h : st.enabled = false) :
    (reconstructDOM opts st bs rcd fr ht).trace = [Effect.log "router disabled"] ∧
    (∀ u, Effect.fetchReq u ∉ (reconstructDOM opts st bs rcd fr ht).trace) ∧
    (∀ u, Effect.pushState u ∉ (reconstructDOM opts st bs rcd fr ht).trace) ∧
    (∀ n, Effect.dispatch n ∉ (reconstructDOM opts st bs rcd fr ht).trace) ∧
    (reconstructDOM opts st bs rcd fr ht).router = st ∧
    (reconstructDOM opts st bs rcd fr ht).browser = bs := by
  rw [reconstructDOM_disabled opts st bs rcd fr ht h]
  simp

/-- Witness for C6: a disabled router receiving the `/about` intent. -/
theorem C6_disabled_noop_witness :
    stDisabled.enabled = false ∧
    ((reconstructDOM defaultOpts stDisabled bsA rcdAbout FetchResult.rejected false).trace
        = [Effect.log "router disabled"] ∧
     (∀ u, Effect.fetchReq u ∉
        (reconstructDOM defaultOpts stDisabled bsA rcdAbout FetchResult.rejected false).trace) ∧
     (∀ u, Effect.pushState u ∉
        (reconstructDOM defaultOpts stDisabled bsA rcdAbout FetchResult.rejected false).trace) ∧
     (∀ n, Effect.dispatch n ∉
        (reconstructDOM defaultOpts stDisabled bsA rcdAbout FetchResult.rejected false).trace) ∧
     (reconstructDOM defaultOpts stDisabled bsA rcdAbout FetchResult.rejected false).router
        = stDisabled ∧
     (reconstructDOM defaultOpts stDisabled bsA rcdAbout FetchResult.rejected false).browser
        = bsA) :=
  ⟨rfl, C6_disabled_noop defaultOpts stDisabled bsA rcdAbout FetchResult.rejected false rfl⟩

/-- Claim C5 (confirmed): an intent whose target URL equals the previous
URL is skipped: no fetch request, no `router:fetch` dispatch, no history
push, and the browser state (in particular the history/location) is not
modified — whatever the fetch would have returned. -/
theorem C5_same_url_dedup (opts : Opts) (st : RouterSt) (bs : BrowserSt)
    (rcd : RouteChangeData) (fr : FetchResult) (ht : Bool)
    (h : rcd.next = rcd.prev) :
    (∀ u, Effect.fetchReq u ∉ (reconstructDOM opts st bs rcd fr ht).trace) ∧
    Effect.dispatch "router:fetch" ∉ (reconstructDOM opts st bs rcd fr ht).trace ∧
    (∀ u, Effect.pushState u ∉ (reconstructDOM opts st bs rcd fr ht).trace) ∧
    (reconstructDOM opts st bs rcd fr ht).browser = bs := by
  have hcond : (["popstate", "link", "go"].contains rcd.navType
      && (rcd.next != rcd.prev)) = false := by
    simp [h]
  cases he : st.enabled
  · rw [reconstructDOM_disabled opts st bs rcd fr ht he]
    simp
  · rw [reconstructDOM_skip opts st bs rcd fr ht he hcond]
    simp

/-- Witness for C5: re-activating the current page's own URL. -/
theorem C5_same_url_dedup_witness :
    rcdSame.next = rcdSame.prev ∧
    ((∀ u, Effect.fetchReq u ∉
        (reconstructDOM defaultOpts stEnabled bsA rcdSame FetchResult.rejected false).trace) ∧
     Effect.dispatch "router:fetch" ∉
        (reconstructDOM defaultOpts stEnabled bsA rcdSame FetchResult.rejected false).trace ∧
     (∀ u, Effect.pushState u ∉
        (reconstructDOM defaultOpts stEnabled bsA rcdSame FetchResult.rejected false).trace) ∧
     (reconstructDOM defaultOpts stEnabled bsA rcdSame FetchResult.rejected false).browser
        = bsA) :=
  ⟨rfl, C5_same_url_dedup defaultOpts stEnabled bsA rcdSame FetchResult.rejected false rfl⟩

/-- Claim C7 (confirmed): in every eligible cycle (enabled, recognized
intent kind, target differing from the current URL), the history push of
`next` occurs strictly before the fetch of `next` is initiated: the trace
splits at the push event, no fetch request of any URL precedes it, and the
fetch request follows it — in the failing cycle just as in the successful
one. -/
theorem C7_push_before_fetch (opts : Opts) (st : RouterSt) (bs : BrowserSt)
    (rcd : RouteChangeData) (fr : FetchResult) (ht : Bool)
    (he : st.enabled = true)
    (hk : (["popstate", "link", "go"].contains rcd.navType) = true)
    (hn : rcd.next ≠ rcd.prev) :
    ∃ pre post,
      (reconstructDOM opts st bs rcd fr ht).trace
        = pre ++ Effect.pushState rcd.next :: post ∧
      Effect.fetchReq rcd.next ∈ post ∧
      ∀ u, Effect.fetchReq u ∉ pre := by
  have hcond : (["popstate", "link", "go"].contains rcd.navType
      && (rcd.next != rcd.prev)) = true := by
    rw [Bool.and_eq_true]
    exact ⟨hk, by simpa using hn⟩
  rcases fr with ⟨status, doc⟩ | _
  · rw [reconstructDOM_success opts st bs rcd ht status doc he hcond]
    refine ⟨[Effect.log ("⚡ " ++ rcd.navType)]
        ++ (if opts.log then [Effect.timeStart] else [])
        ++ [Effect.dispatch "router:fetch"],
      Effect.fetchReq rcd.next
        :: ([Effect.mergeHead]
          ++ (if opts.pageTransitions && ht then
                [Effect.transitionStart, Effect.replaceBody] ++ runScriptsTrace doc.scripts
              else
                [Effect.replaceBody] ++ runScriptsTrace doc.scripts)
          ++ [Effect.scrollTo rcd.navType, Effect.dispatch "router:end"]
          ++ (prefetch opts.prefetch { bs with href := rcd.next, links := doc.links }
                st.prefetched).2
          ++ (if opts.log then [Effect.timeEnd] else [])), ?_, ?_, ?_⟩
    · simp
    · simp
    · intro u
      cases hl : opts.log <;> simp [hl]
  · rw [reconstructDOM_rejected opts st bs rcd ht he hcond]
    refine ⟨[Effect.log ("⚡ " ++ rcd.navType)]
        ++ (if opts.log then [Effect.timeStart] else [])
        ++ [Effect.dispatch "router:fetch"],
      Effect.fetchReq rcd.next
        :: ([Effect.dispatch "router:error"]
          ++ (if opts.log then [Effect.timeEnd] else [])
          ++ [Effect.errorLog "💥 router fetch failed"]), ?_, ?_, ?_⟩
    · simp
    · simp
    · intro u
      cases hl : opts.log <;> simp [hl]

/-- Witness for C7: the `/about` intent on `https://a.example/`, with the
fetch failing (the push must still have preceded the fetch attempt). -/
theorem C7_push_before_fetch_witness :
    stEnabled.enabled = true ∧
    (["popstate", "link", "go"].contains rcdAbout.navType) = true ∧
    rcdAbout.next ≠ rcdAbout.prev ∧
    (∃ pre post,
      (reconstructDOM defaultOpts stEnabled bsA rcdAbout FetchResult.rejected false).trace
        = pre ++ Effect.pushState rcdAbout.next :: post ∧
      Effect.fetchReq rcdAbout.next ∈ post ∧
      ∀ u, Effect.fetchReq u ∉ pre) :=
  ⟨rfl, by decide, by decide,
    C7_push_before_fetch defaultOpts stEnabled bsA rcdAbout FetchResult.rejected false
      rfl (by decide) (by decide)⟩

theorem count_runScriptsTrace (l : List String) (s : String) :
    (runScriptsTrace l).count (Effect.execScript s) = l.count s := by
  unfold runScriptsTrace
  exact List.count_map_of_injective l Effect.execScript (fun a b h => by simpa using h) s

theorem count_execScript_prefetch_snd (b : Bool) (bs : BrowserSt)
    (pf : List String) (s : String) :
    ((prefetch b bs pf).2).count (Effect.execScript s) = 0 := by
  rw [List.count_eq_zero]
  intro h
  obtain ⟨u, hu⟩ := prefetch_snd_shape _ _ _ _ h
  exact Effect.noConfusion hu

/-- Claim C8 (confirmed): in every cycle whose fetch resolves, the script
re-executions form exactly the block `doc.scripts` placed immediately
after the body replacement: no script executes before the replacement or
anywhere else in the cycle, and each script element of the fetched body
executes exactly once (counted with multiplicity). -/
theorem C8_scripts_after_body (opts : Opts) (st : RouterSt) (bs : BrowserSt)
    (rcd : RouteChangeData) (ht : Bool) (status : Nat) (doc : NextDoc)
    (he : st.enabled = true)
    (hk : (["popstate", "link", "go"].contains rcd.navType) = true)
    (hn : rcd.next ≠ rcd.prev) :
    ∃ pre post,
      (reconstructDOM opts st bs rcd (FetchResult.success status doc) ht).trace
        = pre ++ (Effect.replaceBody :: runScriptsTrace doc.scripts) ++ post ∧
      (∀ s, Effect.execScript s ∉ pre) ∧
      (∀ s, Effect.execScript s ∉ post) ∧
      ∀ s, ((reconstructDOM opts st bs rcd (FetchResult.success status doc) ht).trace).count
          (Effect.execScript s) = doc.scripts.count s := by
  have hcond : (["popstate", "link", "go"].contains rcd.navType
      && (rcd.next != rcd.prev)) = true := by
    rw [Bool.and_eq_true]
    exact ⟨hk, by simpa using hn⟩
  rw [reconstructDOM_success opts st bs rcd ht status doc he hcond]
  refine ⟨[Effect.log ("⚡ " ++ rcd.navType)]
      ++ (if opts.log then [Effect.timeStart] else [])
      ++ [Effect.dispatch "router:fetch", Effect.pushState rcd.next,
          Effect.fetchReq rcd.next, Effect.mergeHead]
      ++ (if opts.pageTransitions && ht then [Effect.transitionStart] else []),
    [Effect.scrollTo rcd.navType, Effect.dispatch "router:end"]
      ++ (prefetch opts.prefetch { bs with href := rcd.next, links := doc.links }
            st.prefetched).2
      ++ (if opts.log then [Effect.timeEnd] else []), ?_, ?_, ?_, ?_⟩
  · rcases Bool.dichotomy opts.log with hl | hl <;>
      rcases Bool.dichotomy (opts.pageTransitions && ht) with hb | hb <;>
      simp [hl, hb]
  · intro s
    rcases Bool.dichotomy opts.log with hl | hl <;>
      rcases Bool.dichotomy (opts.pageTransitions && ht) with hb | hb <;>
      simp [hl, hb]
  · intro s hmem
    rcases List.mem_append.mp hmem with h | h
    · rcases List.mem_append.mp h with h2 | h2
      · simp at h2
      · obtain ⟨u, hu⟩ := prefetch_snd_shape _ _ _ _ h2
        exact Effect.noConfusion hu
    · rcases Bool.dichotomy opts.log with hl | hl <;> simp [hl] at h
  · intro s
    rcases Bool.dichotomy opts.log with hl | hl <;>
      rcases Bool.dichotomy (opts.pageTransitions && ht) with hb | hb <;>
      simp [hl, hb, List.count_append, count_runScriptsTrace,
        count_execScript_prefetch_snd]

/-- A destination document carrying one body script. -/
def docScripts : NextDoc := { links := [], scripts := ["alert"] }

/-- Witness for C8: a successful `/about` cycle whose fetched body holds
one script element. -/
theorem C8_scripts_after_body_witness :
    stEnabled.enabled = true ∧
    (["popstate", "link", "go"].contains rcdAbout.navType) = true ∧
    rcdAbout.next ≠ rcdAbout.prev ∧
    (∃ pre post,
      (reconstructDOM defaultOpts stEnabled bsA rcdAbout
          (FetchResult.success 200 docScripts) false).trace
        = pre ++ (Effect.replaceBody :: runScriptsTrace docScripts.scripts) ++ post ∧
      (∀ s, Effect.execScript s ∉ pre) ∧
      (∀ s, Effect.execScript s ∉ post) ∧
      ∀ s, ((reconstructDOM defaultOpts stEnabled bsA rcdAbout
          (FetchResult.success 200 docScripts) false).trace).count
          (Effect.execScript s) = docScripts.scripts.count s) :=
  ⟨rfl, by decide, by decide,
    C8_scripts_after_body defaultOpts stEnabled bsA rcdAbout false 200 docScripts
      rfl (by decide) (by decide)⟩

theorem count_prefetch_snd_of_ne (b : Bool) (bs : BrowserSt) (pf : List String)
    (e : Effect) (h : ∀ u, e ≠ Effect.appendPrefetchLink u) :
    ((prefetch b bs pf).2).count e = 0 := by
  rw [List.count_eq_zero]
  intro hmem
  obtain ⟨u, hu⟩ := prefetch_snd_shape _ _ _ _ hmem
  exact h u hu

theorem count_map_execScript_zero (l : List String) (n : String) :
    (l.map Effect.execScript).count (Effect.dispatch n) = 0 := by
  rw [List.count_eq_zero]
  intro h
  rw [List.mem_map] at h
  obtain ⟨s, _, hs⟩ := h
  exact Effect.noConfusion hs

/-- Claim C2 counterexample: with the destination answering HTTP 500, the
cycle does not fail: no `router:error` notification is dispatched, the
call resolves to `undefined` rather than the failure indicator `false`,
and the error page's body is merged into the live document. The code never
inspects the HTTP status of a resolved response. -/
theorem C2_counterexample :
    Effect.dispatch "router:error" ∉
      (reconstructDOM defaultOpts stEnabled bsA rcdAbout
        (FetchResult.success 500 docEmpty) false).trace ∧
    (reconstructDOM defaultOpts stEnabled bsA rcdAbout
        (FetchResult.success 500 docEmpty) false).ret ≠ some false ∧
    Effect.replaceBody ∈
      (reconstructDOM defaultOpts stEnabled bsA rcdAbout
        (FetchResult.success 500 docEmpty) false).trace := by
  decide

/-- Claim C2 (amended): a cycle fails only when the awaited fetch rejects
(network failure): then exactly one `router:error` notification is
dispatched, the error is logged, and the call resolves to the failure
indicator `false` — and no exception escapes (the cycle is a total
function). A response that resolves is never a failure, whatever its
HTTP status: no `router:error` is dispatched and the call resolves to
`undefined`. -/
theorem C2_fetch_failure (opts : Opts) (st : RouterSt) (bs : BrowserSt)
    (rcd : RouteChangeData) (ht : Bool)
    (he : st.enabled = true)
    (hk : (["popstate", "link", "go"].contains rcd.navType) = true)
    (hn : rcd.next ≠ rcd.prev) :
    ((reconstructDOM opts st bs rcd FetchResult.rejected ht).trace).count
        (Effect.dispatch "router:error") = 1 ∧
    Effect.errorLog "💥 router fetch failed" ∈
      (reconstructDOM opts st bs rcd FetchResult.rejected ht).trace ∧
    (reconstructDOM opts st bs rcd FetchResult.rejected ht).ret = some false ∧
    ∀ (status : Nat) (doc : NextDoc),
      ((reconstructDOM opts st bs rcd (FetchResult.success status doc) ht).trace).count
          (Effect.dispatch "router:error") = 0 ∧
      (reconstructDOM opts st bs rcd (FetchResult.success status doc) ht).ret = none := by
  have hcond : (["popstate", "link", "go"].contains rcd.navType
      && (rcd.next != rcd.prev)) = true := by
    rw [Bool.and_eq_true]
    exact ⟨hk, by simpa using hn⟩
  refine ⟨?_, ?_, ?_, ?_⟩
  · rw [reconstructDOM_rejected opts st bs rcd ht he hcond]
    rcases Bool.dichotomy opts.log with hl | hl <;>
      simp [hl, List.count_append]
  · rw [reconstructDOM_rejected opts st bs rcd ht he hcond]
    rcases Bool.dichotomy opts.log with hl | hl <;> simp [hl]
  · rw [reconstructDOM_rejected opts st bs rcd ht he hcond]
  · intro status doc
    rw [reconstructDOM_success opts st bs rcd ht status doc he hcond]
    refine ⟨?_, rfl⟩
    rcases Bool.dichotomy opts.log with hl | hl <;>
      rcases Bool.dichotomy (opts.pageTransitions && ht) with hb | hb <;>
      simp [hl, hb, List.count_append, runScriptsTrace,
        count_prefetch_snd_of_ne opts.prefetch _ _ (Effect.dispatch "router:error")
          (fun u h => by simp at h),
        count_map_execScript_zero]

/-- Witness for C2: the `/about` intent whose fetch rejects. -/
theorem C2_fetch_failure_witness :
    stEnabled.enabled = true ∧
    (["popstate", "link", "go"].contains rcdAbout.navType) = true ∧
    rcdAbout.next ≠ rcdAbout.prev ∧
    (((reconstructDOM defaultOpts stEnabled bsA rcdAbout FetchResult.rejected false).trace).count
        (Effect.dispatch "router:error") = 1 ∧
     Effect.errorLog "💥 router fetch failed" ∈
        (reconstructDOM defaultOpts stEnabled bsA rcdAbout FetchResult.rejected false).trace ∧
     (reconstructDOM defaultOpts stEnabled bsA rcdAbout FetchResult.rejected false).ret
        = some false ∧
     ∀ (status : Nat) (doc : NextDoc),
       ((reconstructDOM defaultOpts stEnabled bsA rcdAbout
           (FetchResult.success status doc) false).trace).count
           (Effect.dispatch "router:error") = 0 ∧
       (reconstructDOM defaultOpts stEnabled bsA rcdAbout
           (FetchResult.success status doc) false).ret = none) :=
  ⟨rfl, by decide, by decide,
    C2_fetch_failure defaultOpts stEnabled bsA rcdAbout false rfl (by decide) (by decide)⟩

/-! ### Reachable-state invariants of the prefetched set -/

theorem reconstructDOM_browser_origin (opts : Opts) (st : RouterSt) (bs : BrowserSt)
    (rcd : RouteChangeData) (fr : FetchResult) (ht : Bool) :
    (reconstructDOM opts st bs rcd fr ht).browser.origin = bs.origin := by
  rcases Bool.dichotomy st.enabled with he | he
  · rw [reconstructDOM_disabled opts st bs rcd fr ht he]
  · rcases Bool.dichotomy (["popstate", "link", "go"].contains rcd.navType
        && (rcd.next != rcd.prev)) with hc | hc
    · rw [reconstructDOM_skip opts st bs rcd fr ht he hc]
    · rcases fr with ⟨status, doc⟩ | _
      · rw [reconstructDOM_success opts st bs rcd ht status doc he hc]
      · rw [reconstructDOM_rejected opts st bs rcd ht he hc]

theorem reconstructDOM_prefetched_shape (opts : Opts) (st : RouterSt) (bs : BrowserSt)
    (rcd : RouteChangeData) (fr : FetchResult) (ht : Bool) :
    (reconstructDOM opts st bs rcd fr ht).router.prefetched = st.prefetched ∨
    ∃ bs2 : BrowserSt, bs2.origin = bs.origin ∧
      (reconstructDOM opts st bs rcd fr ht).router.prefetched
        = (prefetch opts.prefetch bs2 st.prefetched).1 := by
  rcases Bool.dichotomy st.enabled with he | he
  · rw [reconstructDOM_disabled opts st bs rcd fr ht he]
    exact Or.inl rfl
  · rcases Bool.dichotomy (["popstate", "link", "go"].contains rcd.navType
        && (rcd.next != rcd.prev)) with hc | hc
    · rw [reconstructDOM_skip opts st bs rcd fr ht he hc]
      exact Or.inl rfl
    · rcases fr with ⟨status, doc⟩ | _
      · rw [reconstructDOM_success opts st bs rcd ht status doc he hc]
        exact Or.inr ⟨{ bs with href := rcd.next, links := doc.links }, rfl, rfl⟩
      · rw [reconstructDOM_rejected opts st bs rcd ht he hc]
        exact Or.inl rfl

theorem step_browser_origin (opts : Opts) (s : RouterSt × BrowserSt) (e : Evt) :
    (step opts s e).2.origin = s.2.origin := by
  obtain ⟨st, bs⟩ := s
  cases e with
  | intent rcd fr ht => exact reconstructDOM_browser_origin opts st bs rcd fr ht
  | setEnabled b => rfl

theorem step_prefetched_shape (opts : Opts) (s : RouterSt × BrowserSt) (e : Evt) :
    (step opts s e).1.prefetched = s.1.prefetched ∨
    ∃ bs2 : BrowserSt, bs2.origin = s.2.origin ∧
      (step opts s e).1.prefetched = (prefetch opts.prefetch bs2 s.1.prefetched).1 := by
  obtain ⟨st, bs⟩ := s
  cases e with
  | intent rcd fr ht => exact reconstructDOM_prefetched_shape opts st bs rcd fr ht
  | setEnabled b => exact Or.inl rfl

theorem step_mono (opts : Opts) (s : RouterSt × BrowserSt) (e : Evt) (v : String)
    (h : v ∈ s.1.prefetched) : v ∈ (step opts s e).1.prefetched := by
  rcases step_prefetched_shape opts s e with hsh | ⟨bs2, _, hsh⟩
  · rw [hsh]; exact h
  · rw [hsh]; exact prefetch_mono _ _ _ _ h

theorem prefetchPred_parts (bs : BrowserSt) (pf : List String) (v : String)
    (h : prefetchPred bs pf v = true) :
    jsIncludes v bs.origin = true ∧ jsIncludes v "#" = false := by
  simp only [prefetchPred, prefetchCore, Bool.and_eq_true, Bool.not_eq_true'] at h
  exact ⟨h.1.1.1, h.1.1.2⟩

theorem prefetch_fst_elem_parts (b : Bool) (bs : BrowserSt) (pf : List String)
    (v : String) (hv : v ∈ (prefetch b bs pf).1) :
    v ∈ pf ∨ (jsIncludes v bs.origin = true ∧ jsIncludes v "#" = false) := by
  cases b
  · left
    simpa [prefetch] using hv
  · rcases (prefetch_fst_mem bs pf v).mp hv with h | ⟨_, hp⟩
    · exact Or.inl h
    · exact Or.inr (prefetchPred_parts bs pf v hp)

/-- The invariant that *does* hold of the prefetched set at every reachable
state: every member passes the code's origin-substring and no-`#` rules
(relative to the construction-time origin, which never changes), and the
set is duplicate-free. -/
def PrefetchedInv (origin : String) (s : RouterSt × BrowserSt) : Prop :=
  s.2.origin = origin ∧
  (∀ v ∈ s.1.prefetched, jsIncludes v origin = true ∧ jsIncludes v "#" = false) ∧
  s.1.prefetched.Nodup

theorem step_inv (opts : Opts) (origin : String) (s : RouterSt × BrowserSt) (e : Evt)
    (h : PrefetchedInv origin s) : PrefetchedInv origin (step opts s e) := by
  obtain ⟨ho, hel, hnd⟩ := h
  refine ⟨by rw [step_browser_origin]; exact ho, ?_, ?_⟩
  · rcases step_prefetched_shape opts s e with hsh | ⟨bs2, hbo, hsh⟩
    · rw [hsh]; exact hel
    · rw [hsh]
      intro v hv
      rcases prefetch_fst_elem_parts opts.prefetch bs2 s.1.prefetched v hv with hin | hparts
      · exact hel v hin
      · rw [hbo, ho] at hparts
        exact hparts
  · rcases step_prefetched_shape opts s e with hsh | ⟨bs2, _, hsh⟩
    · rw [hsh]; exact hnd
    · rw [hsh]; exact prefetch_fst_nodup _ _ _ hnd

theorem run_inv (popts : Option PartialOpts) (hasHistory : Bool) (bs : BrowserSt)
    (es : List Evt) : PrefetchedInv bs.origin (run popts hasHistory bs es) := by
  have hinit : PrefetchedInv bs.origin ((construct popts hasHistory bs).1, bs) := by
    refine ⟨rfl, ?_, ?_⟩
    · intro v hv
      simp only [construct] at hv
      rcases prefetch_fst_elem_parts (mergeOpts popts).prefetch bs [] v hv with h | h
      · simp at h
      · exact h
    · simp only [construct]
      exact prefetch_fst_nodup _ _ _ List.nodup_nil
  unfold run
  generalize ((construct popts hasHistory bs).1, bs) = s0 at hinit ⊢
  induction es generalizing s0 with
  | nil => exact hinit
  | cons e es ih => exact ih _ (step_inv (mergeOpts popts) bs.origin s0 e hinit)

/-- Claim C3 (amended): at every reachable state of the router, every URL
in the prefetched set passes the code's origin and anchor rules (its href
contains the construction-time document origin as a substring and contains
no `#`), each URL was added at most once (the set is duplicate-free), and
no step ever removes an element.  (The spec's further condition that the
set never contains the *current* document URL holds only at the moment of
insertion; after navigating to a previously prefetched URL the set does
contain the current URL.) -/
theorem C3_prefetched_invariant (popts : Option PartialOpts) (hasHistory : Bool)
    (bs : BrowserSt) (es : List Evt) :
    (∀ v ∈ (run popts hasHistory bs es).1.prefetched,
        jsIncludes v bs.origin = true ∧ jsIncludes v "#" = false) ∧
    (run popts hasHistory bs es).1.prefetched.Nodup ∧
    ∀ (e : Evt) (v : String), v ∈ (run popts hasHistory bs es).1.prefetched →
      v ∈ (step (mergeOpts popts) (run popts hasHistory bs es) e).1.prefetched := by
  obtain ⟨-, hel, hnd⟩ := run_inv popts hasHistory bs es
  exact ⟨hel, hnd, fun e v hv => step_mono (mergeOpts popts) _ e v hv⟩

/-- Claim C3 counterexample: construct the router on `https://a.example/`
(the initial prefetch pass records `/about`), then navigate to `/about`.
In the reached state the prefetched set contains the now-current document
URL, refuting the "never contains the current document's URL" part of the
claimed invariant. -/
theorem C3_counterexample :
    (run none true bsA
        [Evt.intent rcdAbout (FetchResult.success 200 docEmpty) false]).1.prefetched.contains
      (run none true bsA
        [Evt.intent rcdAbout (FetchResult.success 200 docEmpty) false]).2.href = true := by
  decide
